import Mathlib

/-!
A shallow embedding in Lean 4 of the core import pipeline of the `modelo`
3D-scene importer (Rust), together with theorems checking its specification.

Modelling conventions:
* Rust `f32`/`f64` arithmetic is idealized: JSON numbers and glTF document
  fields are modelled as `ℚ` (exact decimal values), and the output-scene
  geometry (`lib.rs`) over `ℝ`, so that square roots are available for
  `Vec3::magnitude`/`normalize`.  No rounding is modelled.
* A Rust `panic!` / failed `unwrap()` / out-of-bounds index (all of which
  abort the process) is modelled as the `panic` constructor of the result
  types below; a returned `Err(ImportError)` is the `err` constructor.
* The vertex-welding pass compares `HashableVertex` values, i.e. the raw
  32-bit patterns of every vertex field (the `transmute` in `lib.rs` is a
  plain byte reinterpretation of the whole 60-byte `repr(C)` vertex, so two
  `HashableVertex` values are equal iff every field of the two vertices is
  bit-identical).  The welding code is therefore modelled generically over
  the scalar type `α` with decidable equality: taking `α` to be the type of
  32-bit patterns gives exactly the source's bit-pattern semantics.
-/

namespace Modelo

/-- Result of a fallible, possibly-aborting computation in the scene
pipeline (`lib.rs` / `Gltf::to_scene`): `ok` is normal return, `panic`
models Rust process-aborting panics (failed `unwrap`, out-of-bounds
indexing, explicit `panic!`). -/
inductive PResult (α : Type) where
  | ok (a : α)
  | panic (msg : String)
deriving DecidableEq

def PResult.map {α β : Type} (f : α → β) : PResult α → PResult β
  | .ok a => .ok (f a)
  | .panic s => .panic s

/-- `true` iff the computation aborted the process. -/
def PResult.isPanic {α : Type} : PResult α → Bool
  | .ok _ => false
  | .panic _ => true

/-- `ImportErrorType` from `lib.rs`. -/
inductive ImportErrorType where
  | fileNotFound
  | stringParseError
  | other
deriving DecidableEq

/-- `ImportError` from `lib.rs`. -/
structure ImportError where
  eType : ImportErrorType
  message : String
deriving DecidableEq

/-- Result of `Gltf::import`: `ok` is `Ok(..)`, `err` a returned
`Err(ImportError)` (recoverable by the caller), and `panic` a Rust panic
(process termination, e.g. a failed `unwrap` or an explicit `panic!`). -/
inductive Outcome (α : Type) where
  | ok (a : α)
  | err (e : ImportError)
  | panic (msg : String)

def Outcome.bind {α β : Type} : Outcome α → (α → Outcome β) → Outcome β
  | .ok a, f => f a
  | .err e, _ => .err e
  | .panic s, _ => .panic s

instance : Monad Outcome where
  pure := .ok
  bind := Outcome.bind

/-- `true` iff the computation returned `Err(..)` (a recoverable error). -/
def Outcome.isErr {α : Type} : Outcome α → Bool
  | .err _ => true
  | _ => false

/-- `true` iff the computation panicked (process termination). -/
def Outcome.isPanic {α : Type} : Outcome α → Bool
  | .panic _ => true
  | _ => false

/-- Models `Option::unwrap`: panics on `None`. -/
def unwrapOpt {α : Type} : Option α → Outcome α
  | some a => .ok a
  | none => .panic "called Option unwrap on a None value"

/-- Effectful map over a list in the `Outcome` monad (models a Rust `for`
loop that pushes one parsed element per iteration and aborts on the first
panic). -/
def mapOutcome {α β : Type} (f : α → Outcome β) : List α → Outcome (List β)
  | [] => .ok []
  | a :: rest => do
    let b ← f a
    let bs ← mapOutcome f rest
    pure (b :: bs)

/-! ## Output scene data model (`lib.rs`) -/

/-- `Vec2` from `lib.rs`, with the scalar type abstracted. -/
structure Vec2 (α : Type) where
  x : α
  y : α
deriving DecidableEq

/-- `Vec3` from `lib.rs`, with the scalar type abstracted. -/
structure Vec3 (α : Type) where
  x : α
  y : α
  z : α
deriving DecidableEq

/-- `Vec4` from `lib.rs`, with the scalar type abstracted. -/
structure Vec4 (α : Type) where
  x : α
  y : α
  z : α
  w : α
deriving DecidableEq

/-- `Mat4` from `lib.rs` (row-major: four rows). -/
structure Mat4 (α : Type) where
  row0 : Vec4 α
  row1 : Vec4 α
  row2 : Vec4 α
  row3 : Vec4 α
deriving DecidableEq

/-- `Mat4::identity` from `lib.rs`. -/
def Mat4.identity : Mat4 ℚ :=
  { row0 := ⟨1, 0, 0, 0⟩
    row1 := ⟨0, 1, 0, 0⟩
    row2 := ⟨0, 0, 1, 0⟩
    row3 := ⟨0, 0, 0, 1⟩ }

/-- Componentwise addition, `impl AddAssign<Vec3> for Vec3` from `lib.rs`. -/
instance {α : Type} [Add α] : Add (Vec3 α) where
  add a b := ⟨a.x + b.x, a.y + b.y, a.z + b.z⟩

/-- Componentwise subtraction, `impl Sub<Vec3> for Vec3` from `lib.rs`. -/
instance {α : Type} [Sub α] : Sub (Vec3 α) where
  sub a b := ⟨a.x - b.x, a.y - b.y, a.z - b.z⟩

/-- `Vec3::dot` from `lib.rs`. -/
def Vec3.dot {α : Type} [Mul α] [Add α] (a b : Vec3 α) : α :=
  a.x * b.x + a.y * b.y + a.z * b.z

/-- `Vec3::magnitude_squared` from `lib.rs` (`self.dot(self)`). -/
def Vec3.magnitudeSquared {α : Type} [Mul α] [Add α] (v : Vec3 α) : α :=
  v.dot v

/-- `Vec3::cross` from `lib.rs`. -/
def Vec3.cross {α : Type} [Mul α] [Sub α] (a b : Vec3 α) : Vec3 α :=
  ⟨a.y * b.z - a.z * b.y, a.z * b.x - a.x * b.z, a.x * b.y - a.y * b.x⟩

/-- `Vec3::magnitude` from `lib.rs`: `sqrt(magnitude_squared)`. -/
noncomputable def Vec3.magnitude (v : Vec3 ℝ) : ℝ :=
  Real.sqrt v.magnitudeSquared

/-- `Vec3::normalize` from `lib.rs`: divide every component by the
magnitude. -/
noncomputable def Vec3.normalize (v : Vec3 ℝ) : Vec3 ℝ :=
  ⟨v.x / v.magnitude, v.y / v.magnitude, v.z / v.magnitude⟩

/-- `Vertex` from `lib.rs`; fields in declaration order. -/
structure Vertex (α : Type) where
  position : Vec3 α
  texCoord : Vec2 α
  color : Vec4 α
  normal : Vec3 α
  tangent : Vec3 α
deriving DecidableEq

/-- Output `Mesh` from `lib.rs`. -/
structure Mesh (α : Type) where
  vertices : List (Vertex α)
  indices : Option (List ℕ)
  material : Option ℕ
deriving DecidableEq

/-- `ImageDataType` from `lib.rs`. -/
inductive ImageDataType where
  | unknown
  | png
  | jpg
  | bmp
  | dds
deriving DecidableEq

/-- Output `AlphaMode` from `lib.rs`. -/
inductive AlphaMode where
  | opaqueMode
  | cutoff
  | blend
deriving DecidableEq

/-- Output `Material` from `lib.rs`. -/
structure Material (α : Type) where
  albedoColor : Vec4 α
  albedoTexture : Option ℕ
  normalTexture : Option ℕ
  metallic : α
  metallicTexture : Option ℕ
  roughness : α
  roughnessTexture : Option ℕ
  occlusionTexture : Option ℕ
  emissiveTexture : Option ℕ
  alphaMode : AlphaMode
  alphaCutoff : α
  doubleSided : Bool
deriving DecidableEq

/-- Output `Image` from `lib.rs` (raw bytes as a list of byte values). -/
structure Image where
  path : Option String
  dataType : Option ImageDataType
  data : Option (List ℕ)
deriving DecidableEq

/-- Output `Scene` from `lib.rs`. -/
structure Scene (α : Type) where
  meshes : List (Mesh α)
  materials : Option (List (Material α))
  images : Option (List Image)
deriving DecidableEq

/-- The `load_flags` module from `lib.rs`. -/
def loadFlags.NONE : ℕ := 0

/-- `GENERATE_INDICES = 1 << 0`. -/
def loadFlags.GENERATE_INDICES : ℕ := 1

/-- `GENERATE_NORMALS = 1 << 1`. -/
def loadFlags.GENERATE_NORMALS : ℕ := 2

/-! ## GenerateIndices: vertex welding (`Scene::load`, `lib.rs` 122-157)

The Rust code keys a `HashMap` on `HashableVertex`, the byte-for-byte
reinterpretation of a `Vertex`; map equality is therefore exactly
"every field of the two vertices is bit-identical".  The model keeps the
vertex type abstract (`β` below is `Vertex α`) and uses its decidable
equality as the map's key equality; the map itself is modelled by an
association list (keys are inserted at most once, so lookup order is
irrelevant). -/

/-- Lookup in the modelled `vertex_cache` (`HashMap::get`). -/
def cacheLookup {β : Type} [DecidableEq β] (cache : List (β × ℕ)) (v : β) : Option ℕ :=
  match cache with
  | [] => none
  | (k, i) :: rest => if k = v then some i else cacheLookup rest v

/-- The welding loop of `Scene::load` (`lib.rs` 137-152): state is the
vertex cache, the new vertex list, the new index list and the next fresh
index `id`; one iteration per remaining input vertex. -/
def weldGo {β : Type} [DecidableEq β] (cache : List (β × ℕ)) (outV : List β)
    (outI : List ℕ) (id : ℕ) : List β → List β × List ℕ
  | [] => (outV, outI)
  | v :: rest =>
    match cacheLookup cache v with
    | some i => weldGo cache outV (outI ++ [i]) id rest
    | none => weldGo ((v, id) :: cache) (outV ++ [v]) (outI ++ [id]) (id + 1) rest

/-- The whole welding loop, started from the empty state
(`lib.rs` 131-152). -/
def weld {β : Type} [DecidableEq β] (vs : List β) : List β × List ℕ :=
  weldGo [] [] [] 0 vs

/-- The per-mesh body of the `GENERATE_INDICES` block of `Scene::load`
(`lib.rs` 126-156): meshes that already have indices are skipped
(`continue`); otherwise the vertex list is replaced by the deduplicated
list and the index list is set. -/
def generateIndicesMesh {α : Type} [DecidableEq α] (m : Mesh α) : Mesh α :=
  match m.indices with
  | some _ => m
  | none =>
    let r := weld m.vertices
    { m with vertices := r.1, indices := some r.2 }

/-- Specification-side description of the welding output, following the
spec's words: "scan vertices in original order, assigning each
previously-unseen key the next sequential output index and appending its
vertex to a new deduplicated vertex list".  `dedupFSAux acc l` scans `l`
appending previously-unseen values to `acc`. -/
def dedupFSAux {β : Type} [DecidableEq β] (acc : List β) : List β → List β
  | [] => acc
  | v :: rest => if v ∈ acc then dedupFSAux acc rest else dedupFSAux (acc ++ [v]) rest

/-- First-seen deduplication of a list (specification-side definition). -/
def dedupFS {β : Type} [DecidableEq β] (l : List β) : List β :=
  dedupFSAux [] l

/-- Index of the first occurrence of `v` in a list, if any
(specification-side definition). -/
def firstIdx? {β : Type} [DecidableEq β] (v : β) : List β → Option ℕ
  | [] => none
  | a :: rest => if a = v then some 0 else (firstIdx? v rest).map (· + 1)

/-! ## GenerateNormals (`Scene::load`, `lib.rs` 160-222) -/

/-- The face normal of the triangle `(v1, v2, v3)` as computed in
`Scene::load` (`lib.rs` 186-192 and 205-211): the cross product of
`edge1 = v1.position - v2.position` and `edge2 = v3.position - v2.position`,
with every component negated afterwards. -/
def faceNormal (v1 v2 v3 : Vertex ℝ) : Vec3 ℝ :=
  let e1 := v1.position - v2.position
  let e2 := v3.position - v2.position
  let no := Vec3.cross e1 e2
  ⟨-no.x, -no.y, -no.z⟩

/-- `vertices[j].normal += no` (`lib.rs` 194-196, 213-215).  The read at
`j` is always preceded in the source by an in-bounds read of the same
index, so the out-of-bounds case (which would panic there) is
unreachable at every call site and left as the identity. -/
def addNormalAt (vs : List (Vertex ℝ)) (j : ℕ) (no : Vec3 ℝ) : List (Vertex ℝ) :=
  match vs.get? j with
  | some v => vs.set j { v with normal := v.normal + no }
  | none => vs

/-- The indexed accumulation loop (`lib.rs` 177-197):
`for i in (0..indices.len()).step_by(3)` reads `indices[i]`,
`indices[i+1]`, `indices[i+2]` (panicking when fewer than 3 entries
remain), reads the three referenced vertices (panicking when an index is
out of range) and accumulates the face normal into all three. -/
def accumIndexed (vs : List (Vertex ℝ)) : List ℕ → PResult (List (Vertex ℝ))
  | [] => .ok vs
  | [_] => .panic "index out of bounds"
  | [_, _] => .panic "index out of bounds"
  | i1 :: i2 :: i3 :: rest =>
    match vs.get? i1, vs.get? i2, vs.get? i3 with
    | some v1, some v2, some v3 =>
      let no := faceNormal v1 v2 v3
      accumIndexed (addNormalAt (addNormalAt (addNormalAt vs i1 no) i2 no) i3 no) rest
    | _, _, _ => .panic "index out of bounds"

/-- The unindexed accumulation loop (`lib.rs` 200-216):
`for i in (0..vertices.len()).step_by(3)` reads `vertices[i]`,
`vertices[i+1]`, `vertices[i+2]` (the latter two may be out of bounds,
which panics) and accumulates the face normal into all three. -/
def accumUnindexed (vs : List (Vertex ℝ)) (i : ℕ) : PResult (List (Vertex ℝ)) :=
  if h : i < vs.length then
    match vs.get? i, vs.get? (i + 1), vs.get? (i + 2) with
    | some v1, some v2, some v3 =>
      let no := faceNormal v1 v2 v3
      accumUnindexed (addNormalAt (addNormalAt (addNormalAt vs i no) (i + 1) no) (i + 2) no) (i + 3)
    | _, _, _ => .panic "index out of bounds"
  else .ok vs
termination_by vs.length - i
decreasing_by
  have hlen : ∀ (l : List (Vertex ℝ)) (j : ℕ) (no : Vec3 ℝ),
      (addNormalAt l j no).length = l.length := by
    intro l j no
    unfold addNormalAt
    cases l.get? j <;> simp
  simp only [hlen]
  omega

/-- `vertex.normal.normalize()` applied to one vertex (the body of the
final loop of the `GENERATE_NORMALS` block, `lib.rs` 219-221). -/
noncomputable def normalizeVertex (v : Vertex ℝ) : Vertex ℝ :=
  { v with normal := v.normal.normalize }

/-- The per-mesh body of the `GENERATE_NORMALS` block of `Scene::load`
(`lib.rs` 161-222): read `vertices[0]` (panicking when the vertex list is
empty), skip the mesh when its normal's magnitude exceeds `0.5`,
otherwise accumulate face normals (indexed or unindexed) and normalize
every vertex's accumulated normal. -/
noncomputable def generateNormalsMesh (m : Mesh ℝ) : PResult (Mesh ℝ) :=
  match m.vertices.get? 0 with
  | none => .panic "index out of bounds: the len is 0 but the index is 0"
  | some v0 =>
    if (1 : ℝ) / 2 < v0.normal.magnitude then .ok m
    else
      match m.indices with
      | some idx =>
        match accumIndexed m.vertices idx with
        | .panic s => .panic s
        | .ok vs => .ok { m with vertices := vs.map normalizeVertex }
      | none =>
        match accumUnindexed m.vertices 0 with
        | .panic s => .panic s
        | .ok vs => .ok { m with vertices := vs.map normalizeVertex }

/-- The `GENERATE_NORMALS` block applied to every mesh in order
(`for mesh in &mut scene.meshes`); the first panic aborts the process. -/
noncomputable def generateNormalsMeshes : List (Mesh ℝ) → PResult (List (Mesh ℝ))
  | [] => .ok []
  | m :: rest =>
    match generateNormalsMesh m with
    | .panic s => .panic s
    | .ok m' =>
      match generateNormalsMeshes rest with
      | .panic s => .panic s
      | .ok ms => .ok (m' :: ms)

/-- The post-processing stage of `Scene::load` (`lib.rs` 122-223): the
`GENERATE_INDICES` block runs when bit 0 of `flags` is set, then the
`GENERATE_NORMALS` block runs when bit 1 is set. -/
noncomputable def postProcess (flags : ℕ) (s : Scene ℝ) : PResult (Scene ℝ) :=
  let s1 :=
    if flags &&& loadFlags.GENERATE_INDICES ≠ 0 then
      { s with meshes := s.meshes.map generateIndicesMesh }
    else s
  if flags &&& loadFlags.GENERATE_NORMALS ≠ 0 then
    match generateNormalsMeshes s1.meshes with
    | .panic msg => .panic msg
    | .ok ms => .ok { s1 with meshes := ms }
  else .ok s1

/-! ## Scene assembly: per-primitive vertex construction
(`Gltf::to_scene`, `gltf.rs` 915-934) -/

/-- The vertex-building loop of `Gltf::to_scene` (`gltf.rs` 919-934):
one `Vertex` per position element; the normal is looked up with
`normals.get(i)` and defaults to `(0,0,0)`, the texture coordinate is
indexed directly (`tex_coords[i]`, panicking when out of bounds), color
is fixed fully-white and tangent fixed zero.  `i` is the running
position index. -/
def buildVerticesGo (texCoords : List (Vec2 ℝ)) (normals : List (Vec3 ℝ)) :
    List (Vec3 ℝ) → ℕ → PResult (List (Vertex ℝ))
  | [], _ => .ok []
  | p :: ps, i =>
    let normal := (normals.get? i).getD ⟨0, 0, 0⟩
    match texCoords.get? i with
    | some tc =>
      (buildVerticesGo texCoords normals ps (i + 1)).map
        (fun vs => ⟨p, tc, ⟨1, 1, 1, 1⟩, normal, ⟨0, 0, 0⟩⟩ :: vs)
    | none => .panic "index out of bounds: the len is 0 but the index is 0"

/-- Vertex construction for one primitive from its decoded attribute
arrays (`gltf.rs` 915-934). -/
def buildVertices (positions : List (Vec3 ℝ)) (texCoords : List (Vec2 ℝ))
    (normals : List (Vec3 ℝ)) : PResult (List (Vertex ℝ)) :=
  buildVerticesGo texCoords normals positions 0

/-! ## glTF document model (`gltf.rs`)

Types that clash with the output-scene names of `lib.rs` carry a `Gltf`
prefix (`GltfImage`, `GltfMaterial`, `GltfMesh`, `GltfScene`,
`GltfAlphaMode`); all other names follow the source. -/

/-- `Asset` from `gltf.rs`. -/
structure Asset where
  version : String
  copyright : Option String
  generator : Option String
  minVersion : Option String
deriving DecidableEq

/-- `ComponentType` from `gltf.rs`. -/
inductive ComponentType where
  | byte
  | unsignedByte
  | short
  | unsignedShort
  | unsignedInt
  | float
deriving DecidableEq

/-- `AccessorType` from `gltf.rs`. -/
inductive AccessorType where
  | scalar
  | vec2
  | vec3
  | vec4
  | mat2
  | mat3
  | mat4
deriving DecidableEq

/-- `Accessor` from `gltf.rs`. -/
structure Accessor where
  bufferView : Option ℕ
  byteOffset : ℕ
  componentType : ComponentType
  normalized : Bool
  count : ℕ
  aType : AccessorType
  max : Option (List ℚ)
  min : Option (List ℚ)
deriving DecidableEq

/-- `Buffer` from `gltf.rs`. -/
structure Buffer where
  uri : Option String
  byteLength : ℕ
deriving DecidableEq

/-- `BufferTarget` from `gltf.rs`. -/
inductive BufferTarget where
  | arrayBuffer
  | elementArrayBuffer
deriving DecidableEq

/-- `BufferView` from `gltf.rs`. -/
structure BufferView where
  buffer : ℕ
  byteOffset : ℕ
  byteLength : ℕ
  byteStride : Option ℕ
  target : Option BufferTarget
deriving DecidableEq

/-- `Image` from `gltf.rs` (document-side image). -/
structure GltfImage where
  uri : Option String
  mimeType : Option String
  bufferView : Option ℕ
deriving DecidableEq

/-- `TextureInfo` from `gltf.rs`. -/
structure TextureInfo where
  index : ℕ
  texCoord : ℕ
  scale : Option ℚ
deriving DecidableEq

/-- `PbrMetallicRoughness` from `gltf.rs`. -/
structure PbrMetallicRoughness where
  baseColorFactor : Vec4 ℚ
  baseColorTexture : Option TextureInfo
  metallicFactor : ℚ
  roughnessFactor : ℚ
  metallicRoughnessTexture : Option TextureInfo
deriving DecidableEq

/-- `AlphaMode` from `gltf.rs` (document-side alpha mode). -/
inductive GltfAlphaMode where
  | opaqueMode
  | mask
  | blend
deriving DecidableEq

/-- `Material` from `gltf.rs` (document-side material). -/
structure GltfMaterial where
  pbrMetallicRoughness : Option PbrMetallicRoughness
  normalTexture : Option TextureInfo
  occlusionTexture : Option TextureInfo
  emissiveTexture : Option TextureInfo
  emissiveFactor : Vec3 ℚ
  alphaMode : GltfAlphaMode
  alphaCutoff : ℚ
  doubleSided : Bool
deriving DecidableEq

/-- `PrimitiveTopology` from `gltf.rs`. -/
inductive PrimitiveTopology where
  | points
  | lines
  | lineLoop
  | lineStrip
  | triangles
  | triangleStrip
  | triangleFan
deriving DecidableEq

/-- `MeshPrimitive` from `gltf.rs`. -/
structure MeshPrimitive where
  attributes : List (String × ℕ)
  indices : Option ℕ
  material : Option ℕ
  mode : PrimitiveTopology
deriving DecidableEq

/-- `Mesh` from `gltf.rs` (document-side mesh). -/
structure GltfMesh where
  primitives : List MeshPrimitive
  weights : Option (List ℚ)
deriving DecidableEq

/-- `Quat` from `lib.rs` (`pub type Quat = Vec4`). -/
abbrev Quat := Vec4 ℚ

/-- `Node` from `gltf.rs`. -/
structure Node where
  camera : Option ℕ
  children : Option (List ℕ)
  skin : Option ℕ
  matrix : Mat4 ℚ
  mesh : Option ℕ
  rotation : Quat
  scale : Vec3 ℚ
  translation : Vec3 ℚ
  weights : Option (List ℚ)
deriving DecidableEq

/-- `TextureFilter` from `gltf.rs`. -/
inductive TextureFilter where
  | nearest
  | linear
  | nearestMipmapNearest
  | linearMipmapNearest
  | nearestMipmapLinear
  | linearMipmapLinear
deriving DecidableEq

/-- `TextureWrapMode` from `gltf.rs` (`Repeat` is named `repeatMode`
because `repeat` is a Lean keyword). -/
inductive TextureWrapMode where
  | clampToEdge
  | mirroredRepeat
  | repeatMode
deriving DecidableEq

/-- `Sampler` from `gltf.rs`. -/
structure Sampler where
  magFilter : Option TextureFilter
  minFilter : Option TextureFilter
  wrapS : TextureWrapMode
  wrapT : TextureWrapMode
deriving DecidableEq

/-- `Scene` from `gltf.rs` (document-side scene). -/
structure GltfScene where
  nodes : Option (List ℕ)
deriving DecidableEq

/-- `Texture` from `gltf.rs`. -/
structure Texture where
  sampler : Option ℕ
  source : Option ℕ
deriving DecidableEq

/-- `Gltf` from `gltf.rs` (fields in declaration order). -/
structure Gltf where
  accessors : Option (List Accessor)
  asset : Asset
  buffers : Option (List Buffer)
  bufferViews : Option (List BufferView)
  images : Option (List GltfImage)
  materials : Option (List GltfMaterial)
  meshes : Option (List GltfMesh)
  nodes : Option (List Node)
  samplers : Option (List Sampler)
  scene : Option ℕ
  scenes : Option (List GltfScene)
  textures : Option (List Texture)
  glbData : Option (List ℕ)
deriving DecidableEq

/-! ## JSON value tree (the external `serde_json::Value`, modelled at the
boundary).  JSON numbers are modelled as exact rationals; `as_u64`
succeeds exactly on non-negative integers (the unrepresentable-above-2^64
case is not modelled), `as_f64` on every number. -/

/-- A generic JSON value tree. -/
inductive Json where
  | null
  | bool (b : Bool)
  | num (q : ℚ)
  | str (s : String)
  | arr (elems : List Json)
  | obj (fields : List (String × Json))

/-- Object-field lookup (first matching key). -/
def lookupField : List (String × Json) → String → Option Json
  | [], _ => none
  | (k, v) :: rest, key => if k = key then some v else lookupField rest key

/-- `Value::get(key)`: `Some` only on objects that contain the key. -/
def Json.get? : Json → String → Option Json
  | .obj fields, key => lookupField fields key
  | _, _ => none

/-- `Value::as_str`. -/
def Json.asStr : Json → Option String
  | .str s => some s
  | _ => none

/-- `Value::as_u64`. -/
def Json.asU64 : Json → Option ℕ
  | .num q => if q.den = 1 ∧ 0 ≤ q.num then some q.num.toNat else none
  | _ => none

/-- `Value::as_f64` (every number converts). -/
def Json.asF64 : Json → Option ℚ
  | .num q => some q
  | _ => none

/-- `Value::as_bool`. -/
def Json.asBool : Json → Option Bool
  | .bool b => some b
  | _ => none

/-- `Value::as_array`. -/
def Json.asArray : Json → Option (List Json)
  | .arr xs => some xs
  | _ => none

/-- `Value::as_object`. -/
def Json.asObject : Json → Option (List (String × Json))
  | .obj fields => some fields
  | _ => none

/-- `value[i]` (the `Index` impl of `serde_json::Value`): `Null` when the
value is not an array or the index is out of range. -/
def jIndex (v : Json) (i : ℕ) : Json :=
  match v with
  | .arr xs => (xs.get? i).getD .null
  | _ => .null

/-- `value[i].as_f64().unwrap() as f32`. -/
def jNumAt (v : Json) (i : ℕ) : Outcome ℚ :=
  unwrapOpt (Json.asF64 (jIndex v i))

/-! ## Parser helpers (`gltf.rs` 1118-1195) -/

/-- `value_to_string` (`gltf.rs` 1119): `value.as_str().unwrap()`. -/
def valueToString (v : Json) : Outcome String :=
  unwrapOpt v.asStr

/-- `to_string_or_none` (`gltf.rs` 1124). -/
def toStringOrNone (o : Option Json) : Outcome (Option String) :=
  match o with
  | some v => do pure (some (← valueToString v))
  | none => pure none

/-- `to_u64_or_none` (`gltf.rs` 1133). -/
def toU64OrNone (o : Option Json) : Outcome (Option ℕ) :=
  match o with
  | some v => do pure (some (← unwrapOpt v.asU64))
  | none => pure none

/-- `to_u64_or_default` (`gltf.rs` 1142). -/
def toU64OrDefault (o : Option Json) (default : ℕ) : Outcome ℕ :=
  match o with
  | some v => unwrapOpt v.asU64
  | none => pure default

/-- `to_f32_or_default` (`gltf.rs` 1151). -/
def toF32OrDefault (o : Option Json) (default : ℚ) : Outcome ℚ :=
  match o with
  | some v => unwrapOpt v.asF64
  | none => pure default

/-- `to_bool_or_default` (`gltf.rs` 1160). -/
def toBoolOrDefault (o : Option Json) (default : Bool) : Outcome Bool :=
  match o with
  | some v => unwrapOpt v.asBool
  | none => pure default

/-- `ComponentType::from_u64` (`gltf.rs` 26-37): an unrecognized code hits
`panic!("Unrecognized component type {ct}")`. -/
def ComponentType.fromU64 (n : ℕ) : Outcome ComponentType :=
  if n = 5120 then .ok .byte
  else if n = 5121 then .ok .unsignedByte
  else if n = 5122 then .ok .short
  else if n = 5123 then .ok .unsignedShort
  else if n = 5125 then .ok .unsignedInt
  else if n = 5126 then .ok .float
  else .panic ("Unrecognized component type " ++ toString n)

/-- `BufferTarget::from_u64` (`gltf.rs` 78-85). -/
def BufferTarget.fromU64 (n : ℕ) : Outcome BufferTarget :=
  if n = 34962 then .ok .arrayBuffer
  else if n = 34963 then .ok .elementArrayBuffer
  else .panic ("Unrecognized buffer target " ++ toString n ++ ".")

/-- `PrimitiveTopology::from_u64` (`gltf.rs` 157-169). -/
def PrimitiveTopology.fromU64 (n : ℕ) : Outcome PrimitiveTopology :=
  if n = 0 then .ok .points
  else if n = 1 then .ok .lines
  else if n = 2 then .ok .lineLoop
  else if n = 3 then .ok .lineStrip
  else if n = 4 then .ok .triangles
  else if n = 5 then .ok .triangleStrip
  else if n = 6 then .ok .triangleFan
  else .panic ("Unrecognized primitive topology " ++ toString n)

/-- `TextureFilter::from_u64` (`gltf.rs` 211-222). -/
def TextureFilter.fromU64 (n : ℕ) : Outcome TextureFilter :=
  if n = 9728 then .ok .nearest
  else if n = 9729 then .ok .linear
  else if n = 9984 then .ok .nearestMipmapNearest
  else if n = 9985 then .ok .linearMipmapNearest
  else if n = 9986 then .ok .nearestMipmapLinear
  else if n = 9987 then .ok .linearMipmapLinear
  else .panic ("Unrecognized texture filter " ++ toString n ++ ".")

/-- `TextureWrapMode::from_u64` (`gltf.rs` 233-241). -/
def TextureWrapMode.fromU64 (n : ℕ) : Outcome TextureWrapMode :=
  if n = 33071 then .ok .clampToEdge
  else if n = 33648 then .ok .mirroredRepeat
  else if n = 10497 then .ok .repeatMode
  else .panic ("Unrecognized texture wrap mode " ++ toString n)

/-- `to_enum_or_none` (`gltf.rs` 1102), with the `EnumConvert` trait
dispatch modelled by passing the per-enum `from_u64` explicitly. -/
def toEnumOrNone {T : Type} (fromU64 : ℕ → Outcome T) (o : Option Json) :
    Outcome (Option T) :=
  match o with
  | some v => do pure (some (← fromU64 (← unwrapOpt v.asU64)))
  | none => pure none

/-- `to_enum_or_default` (`gltf.rs` 1110). -/
def toEnumOrDefault {T : Type} (fromU64 : ℕ → Outcome T) (o : Option Json)
    (default : T) : Outcome T :=
  match o with
  | some v => do fromU64 (← unwrapOpt v.asU64)
  | none => pure default

/-- The accessor `type` string table (`gltf.rs` 350-359); an unrecognized
string hits `panic!`. -/
def parseAccessorType (s : String) : Outcome AccessorType :=
  if s = "SCALAR" then .ok .scalar
  else if s = "VEC2" then .ok .vec2
  else if s = "VEC3" then .ok .vec3
  else if s = "VEC4" then .ok .vec4
  else if s = "MAT2" then .ok .mat2
  else if s = "MAT3" then .ok .mat3
  else if s = "MAT4" then .ok .mat4
  else .panic ("Unrecognized acccessor type \"" ++ s ++ "\"")

/-- The material `alphaMode` string table (`gltf.rs` 533-539); an
unrecognized string hits `panic!("Unrecognized alpha mode ...")`. -/
def parseAlphaModeStr (s : String) : Outcome GltfAlphaMode :=
  if s = "OPAQUE" then .ok .opaqueMode
  else if s = "MASK" then .ok .mask
  else if s = "BLEND" then .ok .blend
  else .panic ("Unrecognized alpha mode \"" ++ s ++ "\"")

/-- `.iter().map(|value| value.as_f64().unwrap() as f32).collect()` on a
`Value` expected to be an array. -/
def parseF32Array (v : Json) : Outcome (List ℚ) := do
  let xs ← unwrapOpt v.asArray
  mapOutcome (fun x => unwrapOpt x.asF64) xs

/-- `value_to_texture_info` (`gltf.rs` 1168-1186). -/
def valueToTextureInfo (value : Json) : Outcome TextureInfo := do
  let index ← unwrapOpt (← unwrapOpt (value.get? "index")).asU64
  let texCoord ← toU64OrDefault (value.get? "texCoord") 0
  let scale ←
    match value.get? "scale" with
    | some s => do pure (some (← unwrapOpt s.asF64))
    | none =>
      match value.get? "strength" with
      | some s => do pure (some (← unwrapOpt s.asF64))
      | none => pure none
  pure { index, texCoord, scale }

/-- `to_texture_info_or_none` (`gltf.rs` 1189). -/
def toTextureInfoOrNone (o : Option Json) : Outcome (Option TextureInfo) :=
  match o with
  | some v => do pure (some (← valueToTextureInfo v))
  | none => pure none

/-! ## Document parsing (`Gltf::import`, `gltf.rs` 309-822) -/

/-- One accessor (`gltf.rs` 334-393). -/
def parseAccessor (accessor : Json) : Outcome Accessor := do
  let bufferView ← toU64OrNone (accessor.get? "bufferView")
  let byteOffset ← toU64OrDefault (accessor.get? "byteOffset") 0
  let componentType ←
    ComponentType.fromU64 (← unwrapOpt (← unwrapOpt (accessor.get? "componentType")).asU64)
  let normalized ←
    match accessor.get? "normalized" with
    | some norm => unwrapOpt norm.asBool
    | none => pure false
  let count ← unwrapOpt (← unwrapOpt (accessor.get? "count")).asU64
  let aType ← parseAccessorType (← unwrapOpt (← unwrapOpt (accessor.get? "type")).asStr)
  let max ←
    match accessor.get? "max" with
    | some v => do pure (some (← parseF32Array v))
    | none => pure none
  let min ←
    match accessor.get? "min" with
    | some v => do pure (some (← parseF32Array v))
    | none => pure none
  pure { bufferView, byteOffset, componentType, normalized, count, aType, max, min }

/-- One buffer (`gltf.rs` 404-413). -/
def parseBuffer (buffer : Json) : Outcome Buffer := do
  let uri ← toStringOrNone (buffer.get? "uri")
  let byteLength ← unwrapOpt (← unwrapOpt (buffer.get? "byteLength")).asU64
  pure { uri, byteLength }

/-- One buffer view (`gltf.rs` 424-442). -/
def parseBufferView (view : Json) : Outcome BufferView := do
  let buffer ← unwrapOpt (← unwrapOpt (view.get? "buffer")).asU64
  let byteOffset ← toU64OrDefault (view.get? "byteOffset") 0
  let byteLength ← unwrapOpt (← unwrapOpt (view.get? "byteLength")).asU64
  let byteStride ← toU64OrNone (view.get? "byteStride")
  let target ← toEnumOrNone BufferTarget.fromU64 (view.get? "target")
  pure { buffer, byteOffset, byteLength, byteStride, target }

/-- One document-side image (`gltf.rs` 453-465). -/
def parseGltfImage (image : Json) : Outcome GltfImage := do
  let uri ← toStringOrNone (image.get? "uri")
  let mimeType ← toStringOrNone (image.get? "mimeType")
  let bufferView ← toU64OrNone (image.get? "bufferView")
  pure { uri, mimeType, bufferView }

/-- One document-side material (`gltf.rs` 476-557). -/
def parseGltfMaterial (material : Json) : Outcome GltfMaterial := do
  let pbrMetallicRoughness ←
    match material.get? "pbrMetallicRoughness" with
    | some pmr => do
      let baseColorFactor ←
        match pmr.get? "baseColorFactor" with
        | some bcf => do
          pure (⟨← jNumAt bcf 0, ← jNumAt bcf 1, ← jNumAt bcf 2, ← jNumAt bcf 3⟩ : Vec4 ℚ)
        | none => pure (⟨1, 1, 1, 1⟩ : Vec4 ℚ)
      let baseColorTexture ← toTextureInfoOrNone (pmr.get? "baseColorTexture")
      let metallicFactor ← toF32OrDefault (pmr.get? "metallicFactor") 1
      let roughnessFactor ← toF32OrDefault (pmr.get? "roughnessFactor") 1
      let metallicRoughnessTexture ← toTextureInfoOrNone (pmr.get? "metallicRoughnessTexture")
      pure (some { baseColorFactor, baseColorTexture, metallicFactor, roughnessFactor,
                   metallicRoughnessTexture })
    | none => pure none
  let normalTexture ← toTextureInfoOrNone (material.get? "normalTexture")
  let occlusionTexture ← toTextureInfoOrNone (material.get? "occlusionTexture")
  let emissiveTexture ← toTextureInfoOrNone (material.get? "emissiveTexture")
  let emissiveFactor ←
    match material.get? "emissiveFactor" with
    | some ef => do pure (⟨← jNumAt ef 0, ← jNumAt ef 1, ← jNumAt ef 2⟩ : Vec3 ℚ)
    | none => pure (⟨0, 0, 0⟩ : Vec3 ℚ)
  let alphaMode ←
    match material.get? "alphaMode" with
    | some am => do parseAlphaModeStr (← unwrapOpt am.asStr)
    | none => pure GltfAlphaMode.opaqueMode
  let alphaCutoff ← toF32OrDefault (material.get? "alphaCutoff") (1 / 2)
  let doubleSided ← toBoolOrDefault (material.get? "doubleSided") false
  pure { pbrMetallicRoughness, normalTexture, occlusionTexture, emissiveTexture,
         emissiveFactor, alphaMode, alphaCutoff, doubleSided }

/-- One mesh primitive (`gltf.rs` 573-594). -/
def parseMeshPrimitive (primitive : Json) : Outcome MeshPrimitive := do
  let attrsObj ← unwrapOpt (← unwrapOpt (primitive.get? "attributes")).asObject
  let attributes ← mapOutcome (fun kv => do pure (kv.1, ← unwrapOpt kv.2.asU64)) attrsObj
  let indices ← toU64OrNone (primitive.get? "indices")
  let material ← toU64OrNone (primitive.get? "material")
  let mode ← toEnumOrDefault PrimitiveTopology.fromU64 (primitive.get? "mode")
    PrimitiveTopology.triangles
  pure { attributes, indices, material, mode }

/-- One document-side mesh (`gltf.rs` 569-609). -/
def parseGltfMesh (mesh : Json) : Outcome GltfMesh := do
  let primsArr ← unwrapOpt (← unwrapOpt (mesh.get? "primitives")).asArray
  let primitives ← mapOutcome parseMeshPrimitive primsArr
  let weights ←
    match mesh.get? "weights" with
    | some w => do pure (some (← parseF32Array w))
    | none => pure none
  pure { primitives, weights }

/-- The node `matrix` conversion (`gltf.rs` 636-669): the source array is
column-major, the output `Mat4` row-major, so row `i` is built from
source elements `i`, `4+i`, `8+i`, `12+i`; every element is read with
`matrix[k].as_f64().unwrap()`. -/
def parseMat4 (matrix : Json) : Outcome (Mat4 ℚ) := do
  let m0 ← jNumAt matrix 0
  let m4 ← jNumAt matrix 4
  let m8 ← jNumAt matrix 8
  let m12 ← jNumAt matrix 12
  let m1 ← jNumAt matrix 1
  let m5 ← jNumAt matrix 5
  let m9 ← jNumAt matrix 9
  let m13 ← jNumAt matrix 13
  let m2 ← jNumAt matrix 2
  let m6 ← jNumAt matrix 6
  let m10 ← jNumAt matrix 10
  let m14 ← jNumAt matrix 14
  let m3 ← jNumAt matrix 3
  let m7 ← jNumAt matrix 7
  let m11 ← jNumAt matrix 11
  let m15 ← jNumAt matrix 15
  pure { row0 := ⟨m0, m4, m8, m12⟩
         row1 := ⟨m1, m5, m9, m13⟩
         row2 := ⟨m2, m6, m10, m14⟩
         row3 := ⟨m3, m7, m11, m15⟩ }

/-- One node (`gltf.rs` 621-724). -/
def parseNode (node : Json) : Outcome Node := do
  let camera ← toU64OrNone (node.get? "camera")
  let children ←
    match node.get? "children" with
    | some c => do
      let xs ← unwrapOpt c.asArray
      pure (some (← mapOutcome (fun x => unwrapOpt x.asU64) xs))
    | none => pure none
  let skin ← toU64OrNone (node.get? "skin")
  let matrix ←
    match node.get? "matrix" with
    | some mj => parseMat4 mj
    | none => pure Mat4.identity
  let mesh ← toU64OrNone (node.get? "mesh")
  let rotation ←
    match node.get? "rotation" with
    | some r => do pure (⟨← jNumAt r 0, ← jNumAt r 1, ← jNumAt r 2, ← jNumAt r 3⟩ : Quat)
    | none => pure (⟨0, 0, 0, 1⟩ : Quat)
  let scale ←
    match node.get? "scale" with
    | some sc => do pure (⟨← jNumAt sc 0, ← jNumAt sc 1, ← jNumAt sc 2⟩ : Vec3 ℚ)
    | none => pure (⟨1, 1, 1⟩ : Vec3 ℚ)
  let translation ←
    match node.get? "translation" with
    | some t => do pure (⟨← jNumAt t 0, ← jNumAt t 1, ← jNumAt t 2⟩ : Vec3 ℚ)
    | none => pure (⟨0, 0, 0⟩ : Vec3 ℚ)
  let weights ←
    match node.get? "weights" with
    | some w => do pure (some (← parseF32Array w))
    | none => pure none
  pure { camera, children, skin, matrix, mesh, rotation, scale, translation, weights }

/-- One sampler (`gltf.rs` 736-750). -/
def parseSampler (sampler : Json) : Outcome Sampler := do
  let magFilter ← toEnumOrNone TextureFilter.fromU64 (sampler.get? "magFilter")
  let minFilter ← toEnumOrNone TextureFilter.fromU64 (sampler.get? "minFilter")
  let wrapS ← toEnumOrDefault TextureWrapMode.fromU64 (sampler.get? "wrapS")
    TextureWrapMode.repeatMode
  let wrapT ← toEnumOrDefault TextureWrapMode.fromU64 (sampler.get? "wrapT")
    TextureWrapMode.repeatMode
  pure { magFilter, minFilter, wrapS, wrapT }

/-- One document-side scene (`gltf.rs` 764-777). -/
def parseGltfScene (scene : Json) : Outcome GltfScene := do
  let nodes ←
    match scene.get? "nodes" with
    | some n => do
      let xs ← unwrapOpt n.asArray
      pure (some (← mapOutcome (fun x => unwrapOpt x.asU64) xs))
    | none => pure none
  pure { nodes }

/-- One texture (`gltf.rs` 789-797). -/
def parseTexture (texture : Json) : Outcome Texture := do
  let sampler ← toU64OrNone (texture.get? "sampler")
  let source ← toU64OrNone (texture.get? "source")
  pure { sampler, source }

/-- An optional top-level collection: absent key means `None`; a present
key must be an array (`as_array().unwrap()`), each element parsed in
order (the shape shared by every collection block of `Gltf::import`). -/
def parseOptList {T : Type} (o : Option Json) (p : Json → Outcome T) :
    Outcome (Option (List T)) :=
  match o with
  | none => pure none
  | some v => do
    let xs ← unwrapOpt v.asArray
    pure (some (← mapOutcome p xs))

/-- `Gltf::import` (`gltf.rs` 309-822), from the parsed JSON value tree
onward (file reading and raw JSON parsing, `gltf.rs` 291-307, are the
out-of-scope external collaborators).  The `asset` object is mandatory
and must contain `version`; both failures are returned `Err`s.  Every
collection is parsed in source order; `glb_data` is always `None`. -/
def gltfImport (json : Json) : Outcome Gltf := do
  let asset ←
    match json.get? "asset" with
    | some asset =>
      match asset.get? "version" with
      | some version => do
        let v ← valueToString version
        let copyright ← toStringOrNone (asset.get? "copyright")
        let generator ← toStringOrNone (asset.get? "generator")
        let minVersion ← toStringOrNone (asset.get? "minVersion")
        pure ({ version := v, copyright, generator, minVersion } : Asset)
      | none => Outcome.err ⟨.other, "Missing version string."⟩
    | none => Outcome.err ⟨.other, "Missing \"Asset\" from glTF file."⟩
  let accessors ← parseOptList (json.get? "accessors") parseAccessor
  let buffers ← parseOptList (json.get? "buffers") parseBuffer
  let bufferViews ← parseOptList (json.get? "bufferViews") parseBufferView
  let images ← parseOptList (json.get? "images") parseGltfImage
  let materials ← parseOptList (json.get? "materials") parseGltfMaterial
  let meshes ← parseOptList (json.get? "meshes") parseGltfMesh
  let nodes ← parseOptList (json.get? "nodes") parseNode
  let samplers ← parseOptList (json.get? "samplers") parseSampler
  let scene ← toU64OrNone (json.get? "scene")
  let scenes ← parseOptList (json.get? "scenes") parseGltfScene
  let textures ← parseOptList (json.get? "textures") parseTexture
  pure { accessors, asset, buffers, bufferViews, images, materials, meshes, nodes,
         samplers, scene, scenes, textures, glbData := none }

/-! ## Index decoding (`Gltf::to_scene`, `gltf.rs` 936-975, and
`utils.rs`)

The index accessor's byte window is reinterpreted according to the
accessor's component type and cast element-wise to `u32`.  Bytes are
`Fin 256` values; `reinterpret_cast_slice::<T>` truncates a trailing
partial element (`slice.len() / size_of::<T>()`). -/

/-- `reinterpret_cast_slice::<u16>`: little-endian 16-bit groups. -/
def leWords16 : List (Fin 256) → List ℕ
  | b0 :: b1 :: rest => (b0.val + 256 * b1.val) :: leWords16 rest
  | _ => []

/-- `reinterpret_cast_slice::<u32>`: little-endian 32-bit groups. -/
def leWords32 : List (Fin 256) → List ℕ
  | b0 :: b1 :: b2 :: b3 :: rest =>
    (b0.val + 256 * b1.val + 65536 * b2.val + 16777216 * b3.val) :: leWords32 rest
  | _ => []

/-- `reinterpret_cast_slice::<i8>`: each byte as a signed 8-bit value. -/
def signed8 (bytes : List (Fin 256)) : List ℤ :=
  bytes.map fun b => if b.val < 128 then Int.ofNat b.val else Int.ofNat b.val - 256

/-- `reinterpret_cast_slice::<i16>`: little-endian signed 16-bit values. -/
def signed16 (bytes : List (Fin 256)) : List ℤ :=
  (leWords16 bytes).map fun n => if n < 32768 then Int.ofNat n else Int.ofNat n - 65536

/-- `TryInto<u32>` for an integer value: succeeds exactly on `[0, 2^32)`. -/
def tryIntoU32 (z : ℤ) : Option ℕ :=
  if 0 ≤ z ∧ z < 4294967296 then some z.toNat else none

/-- `utils::cast_slice_to_type::<_, u32>` (`utils.rs` 5-17): element-wise
`try_into`, panicking on the first failed conversion. -/
def castSliceToU32 : List ℤ → PResult (List ℕ)
  | [] => .ok []
  | z :: rest =>
    match tryIntoU32 z with
    | some n => (castSliceToU32 rest).map (n :: ·)
    | none => .panic "conversion ddi not work also please write this function to use result smh"

/-- The index-accessor decode of `Gltf::to_scene` (`gltf.rs` 948-971):
dispatch on the accessor's component type; `UnsignedInt` passes the raw
little-endian 32-bit groups through with no conversion; `Float` is
`unimplemented!()`. -/
def decodeIndices (ct : ComponentType) (bytes : List (Fin 256)) : PResult (List ℕ) :=
  match ct with
  | .byte => castSliceToU32 (signed8 bytes)
  | .unsignedByte => castSliceToU32 (bytes.map fun b => Int.ofNat b.val)
  | .short => castSliceToU32 (signed16 bytes)
  | .unsignedShort => castSliceToU32 ((leWords16 bytes).map Int.ofNat)
  | .unsignedInt => .ok (leWords32 bytes)
  | .float => .panic "not implemented"

/-! ## Theorems: index decoding (C1) -/

theorem castSliceToU32_ok (xs : List ℤ) (h : ∀ z ∈ xs, 0 ≤ z ∧ z < 4294967296) :
    castSliceToU32 xs = .ok (xs.map Int.toNat) := by
  induction xs with
  | nil => rfl
  | cons z rest ih =>
    have hz := h z (by simp)
    have hrest := ih fun w hw => h w (by simp [hw])
    simp [castSliceToU32, tryIntoU32, hz.1, hz.2, hrest, PResult.map]

theorem map_natCast_toNat (l : List ℕ) :
    (l.map Int.ofNat).map Int.toNat = l := by
  induction l with
  | nil => rfl
  | cons a l ih => simp [ih]

theorem map_finVal_cast_toNat (bs : List (Fin 256)) :
    (bs.map fun b => Int.ofNat b.val).map Int.toNat = bs.map Fin.val := by
  induction bs with
  | nil => rfl
  | cons b l ih => simp [ih]

theorem leWords16_lt : ∀ (bs : List (Fin 256)), ∀ w ∈ leWords16 bs, w < 65536
  | [] => by simp [leWords16]
  | [_] => by simp [leWords16]
  | b0 :: b1 :: rest => by
    intro w hw
    simp only [leWords16, List.mem_cons] at hw
    rcases hw with h | h
    · have h0 := b0.isLt
      have h1 := b1.isLt
      omega
    · exact leWords16_lt rest w h

/-- C1: for every supported index component type, decoding produces an
owned u32 array preserving source order and widening each value
numerically without loss; for `UnsignedInt` the raw little-endian 4-byte
groups pass through unchanged.  The signed cases are stated for values
that are non-negative under the signed interpretation (the only ones a
u32 can hold without loss); the final conjunct shows the interpretation
is sign-correct: byte `0xFF` is read as `-1`, whose `u32` conversion
fails (panics), rather than as `255`. -/
theorem decodeIndices_widens :
    (∀ bs : List (Fin 256),
      decodeIndices .unsignedByte bs = .ok (bs.map Fin.val))
  ∧ (∀ bs : List (Fin 256),
      decodeIndices .unsignedShort bs = .ok (leWords16 bs))
  ∧ (∀ bs : List (Fin 256),
      decodeIndices .unsignedInt bs = .ok (leWords32 bs))
  ∧ (∀ bs : List (Fin 256), (∀ b ∈ bs, b.val < 128) →
      decodeIndices .byte bs = .ok (bs.map Fin.val))
  ∧ (∀ bs : List (Fin 256), (∀ w ∈ leWords16 bs, w < 32768) →
      decodeIndices .short bs = .ok (leWords16 bs))
  ∧ decodeIndices .byte [255]
      = .panic "conversion ddi not work also please write this function to use result smh" := by
  refine ⟨?_, ?_, fun bs => rfl, ?_, ?_, by decide⟩
  · intro bs
    rw [show decodeIndices .unsignedByte bs
          = castSliceToU32 (bs.map fun b => Int.ofNat b.val) from rfl,
        castSliceToU32_ok, map_finVal_cast_toNat]
    intro z hz
    simp only [List.mem_map] at hz
    obtain ⟨b, _, rfl⟩ := hz
    have := b.isLt
    simp only [Int.ofNat_eq_coe]
    omega
  · intro bs
    rw [show decodeIndices .unsignedShort bs
          = castSliceToU32 ((leWords16 bs).map Int.ofNat) from rfl,
        castSliceToU32_ok, map_natCast_toNat]
    intro z hz
    simp only [List.mem_map] at hz
    obtain ⟨w, hw, rfl⟩ := hz
    have := leWords16_lt bs w hw
    simp only [Int.ofNat_eq_coe]
    omega
  · intro bs hbs
    have hsame : signed8 bs = bs.map fun b => Int.ofNat b.val := by
      unfold signed8
      exact List.map_congr_left fun b hb => if_pos (hbs b hb)
    rw [show decodeIndices .byte bs = castSliceToU32 (signed8 bs) from rfl, hsame,
        castSliceToU32_ok, map_finVal_cast_toNat]
    intro z hz
    simp only [List.mem_map] at hz
    obtain ⟨b, _, rfl⟩ := hz
    have := b.isLt
    simp only [Int.ofNat_eq_coe]
    omega
  · intro bs hbs
    have hsame : signed16 bs = (leWords16 bs).map Int.ofNat := by
      unfold signed16
      exact List.map_congr_left fun w hw => if_pos (hbs w hw)
    rw [show decodeIndices .short bs = castSliceToU32 (signed16 bs) from rfl, hsame,
        castSliceToU32_ok, map_natCast_toNat]
    intro z hz
    simp only [List.mem_map] at hz
    obtain ⟨w, hw, rfl⟩ := hz
    have := leWords16_lt bs w hw
    simp only [Int.ofNat_eq_coe]
    omega

set_option maxRecDepth 8000 in
/-- C1 witness: the spec's example `[1,2,255]` as UnsignedByte, plus
concrete signed-8-bit, signed-16-bit and UnsignedInt decodes. -/
theorem decodeIndices_widens_apply :
    decodeIndices .unsignedByte [1, 2, 255] = .ok [1, 2, 255]
  ∧ decodeIndices .byte [1, 2, 127] = .ok [1, 2, 127]
  ∧ decodeIndices .short [10, 0, 255, 127] = .ok [10, 32767]
  ∧ decodeIndices .unsignedInt [1, 0, 0, 0, 255, 255, 255, 255]
      = .ok [1, 4294967295] := by
  refine ⟨?_, ?_, ?_, ?_⟩
  · exact (decodeIndices_widens.1 [1, 2, 255]).trans (by decide)
  · exact (decodeIndices_widens.2.2.2.1 [1, 2, 127] (by decide)).trans (by decide)
  · exact (decodeIndices_widens.2.2.2.2.1 [10, 0, 255, 127] (by decide)).trans (by decide)
  · exact (decodeIndices_widens.2.2.1 [1, 0, 0, 0, 255, 255, 255, 255]).trans (by decide)

/-! ## Theorems: node matrix conversion (C2) -/

set_option maxRecDepth 8000 in
/-- C2: the column-major to row-major node-matrix conversion is the exact
element permutation (a transpose): with source elements
`a0, ..., a15`, output row `i` is `(a_i, a_(4+i), a_(8+i), a_(12+i))`;
the column-major identity maps to the identity, and the spec's worked
example decodes to the stated rows. -/
theorem parseMat4_transpose :
    (∀ a0 a1 a2 a3 a4 a5 a6 a7 a8 a9 a10 a11 a12 a13 a14 a15 : ℚ,
      parseMat4 (.arr [.num a0, .num a1, .num a2, .num a3,
                       .num a4, .num a5, .num a6, .num a7,
                       .num a8, .num a9, .num a10, .num a11,
                       .num a12, .num a13, .num a14, .num a15])
        = .ok { row0 := ⟨a0, a4, a8, a12⟩
                row1 := ⟨a1, a5, a9, a13⟩
                row2 := ⟨a2, a6, a10, a14⟩
                row3 := ⟨a3, a7, a11, a15⟩ })
  ∧ parseMat4 (.arr [.num 1, .num 0, .num 0, .num 0,
                     .num 0, .num 1, .num 0, .num 0,
                     .num 0, .num 0, .num 1, .num 0,
                     .num 0, .num 0, .num 0, .num 1])
      = .ok Mat4.identity
  ∧ parseMat4 (.arr [.num 0, .num 1, .num 0, .num 0,
                     .num (-1), .num 0, .num 0, .num 0,
                     .num 0, .num 0, .num 1, .num 0,
                     .num 5, .num 6, .num 7, .num 1])
      = .ok { row0 := ⟨0, -1, 0, 5⟩
              row1 := ⟨1, 0, 0, 6⟩
              row2 := ⟨0, 0, 1, 7⟩
              row3 := ⟨0, 0, 0, 1⟩ } :=
  ⟨fun _ _ _ _ _ _ _ _ _ _ _ _ _ _ _ _ => rfl, rfl, rfl⟩

/-! ## Theorems: unrecognized enumerated codes (C4)

The claim asserts an unrecognized code yields a recoverable
`FormatError` and does not terminate the process; the code instead hits
`panic!` in every `from_u64` (and in the alpha-mode match), which aborts
the process. -/

/-- C4 counterexample: an unrecognized component-type code (9999) panics
(process termination) and is not a returned, recoverable error. -/
theorem enumDecode_unknown_code_cex :
    ComponentType.fromU64 9999 = .panic "Unrecognized component type 9999"
  ∧ (ComponentType.fromU64 9999).isErr = false
  ∧ (ComponentType.fromU64 9999).isPanic = true :=
  ⟨rfl, rfl, rfl⟩

/-- C4 (amended): an unrecognized code for any enumerated field
(component type, buffer-view target, primitive mode, texture filter,
texture wrap mode, alpha mode) causes a panic whose message names the
field and the offending code, terminating the process instead of
returning a recoverable error. -/
theorem enumDecode_unknown_panics :
    (∀ n : ℕ, n ∉ [5120, 5121, 5122, 5123, 5125, 5126] →
      ComponentType.fromU64 n = .panic ("Unrecognized component type " ++ toString n))
  ∧ (∀ n : ℕ, n ∉ [34962, 34963] →
      BufferTarget.fromU64 n = .panic ("Unrecognized buffer target " ++ toString n ++ "."))
  ∧ (∀ n : ℕ, n ∉ [0, 1, 2, 3, 4, 5, 6] →
      PrimitiveTopology.fromU64 n = .panic ("Unrecognized primitive topology " ++ toString n))
  ∧ (∀ n : ℕ, n ∉ [9728, 9729, 9984, 9985, 9986, 9987] →
      TextureFilter.fromU64 n = .panic ("Unrecognized texture filter " ++ toString n ++ "."))
  ∧ (∀ n : ℕ, n ∉ [33071, 33648, 10497] →
      TextureWrapMode.fromU64 n = .panic ("Unrecognized texture wrap mode " ++ toString n))
  ∧ (∀ s : String, s ∉ ["OPAQUE", "MASK", "BLEND"] →
      parseAlphaModeStr s = .panic ("Unrecognized alpha mode \"" ++ s ++ "\"")) := by
  refine ⟨?_, ?_, ?_, ?_, ?_, ?_⟩ <;> intro n hn <;> simp only [List.mem_cons,
    List.not_mem_nil, or_false, not_or] at hn
  · simp [ComponentType.fromU64, hn.1, hn.2.1, hn.2.2.1, hn.2.2.2.1, hn.2.2.2.2.1,
      hn.2.2.2.2.2]
  · simp [BufferTarget.fromU64, hn.1, hn.2]
  · simp [PrimitiveTopology.fromU64, hn.1, hn.2.1, hn.2.2.1, hn.2.2.2.1, hn.2.2.2.2.1,
      hn.2.2.2.2.2.1, hn.2.2.2.2.2.2]
  · simp [TextureFilter.fromU64, hn.1, hn.2.1, hn.2.2.1, hn.2.2.2.1, hn.2.2.2.2.1,
      hn.2.2.2.2.2]
  · simp [TextureWrapMode.fromU64, hn.1, hn.2.1, hn.2.2]
  · simp [parseAlphaModeStr, hn.1, hn.2.1, hn.2.2]

/-- C4 witness for the amended claim: concrete unrecognized codes for
each of the six enumerated fields. -/
theorem enumDecode_unknown_panics_apply :
    ComponentType.fromU64 5124 = .panic "Unrecognized component type 5124"
  ∧ BufferTarget.fromU64 7 = .panic "Unrecognized buffer target 7."
  ∧ PrimitiveTopology.fromU64 7 = .panic "Unrecognized primitive topology 7"
  ∧ TextureFilter.fromU64 9730 = .panic "Unrecognized texture filter 9730."
  ∧ TextureWrapMode.fromU64 4 = .panic "Unrecognized texture wrap mode 4"
  ∧ parseAlphaModeStr "CUTOFF" = .panic "Unrecognized alpha mode \"CUTOFF\"" :=
  ⟨enumDecode_unknown_panics.1 5124 (by decide),
   enumDecode_unknown_panics.2.1 7 (by decide),
   enumDecode_unknown_panics.2.2.1 7 (by decide),
   enumDecode_unknown_panics.2.2.2.1 9730 (by decide),
   enumDecode_unknown_panics.2.2.2.2.1 4 (by decide),
   enumDecode_unknown_panics.2.2.2.2.2 "CUTOFF" (by decide)⟩

/-! ## Theorems: GenerateIndices skips indexed meshes (C6) -/

/-- C6: the GenerateIndices pass skips every mesh whose index array is
already set, leaving its vertices, indices and material unchanged. -/
theorem generateIndices_skips_indexed {α : Type} [DecidableEq α] (m : Mesh α)
    (l : List ℕ) (h : m.indices = some l) :
    generateIndicesMesh m = m := by
  simp [generateIndicesMesh, h]

/-- C6 witness: a concrete already-indexed mesh is left unchanged. -/
theorem generateIndices_skips_indexed_apply :
    generateIndicesMesh
        (⟨[⟨⟨0, 0, 0⟩, ⟨0, 0⟩, ⟨0, 0, 0, 0⟩, ⟨0, 0, 0⟩, ⟨0, 0, 0⟩⟩], some [0, 0, 0], some 4⟩
          : Mesh ℕ)
      = ⟨[⟨⟨0, 0, 0⟩, ⟨0, 0⟩, ⟨0, 0, 0, 0⟩, ⟨0, 0, 0⟩, ⟨0, 0, 0⟩⟩], some [0, 0, 0], some 4⟩ :=
  generateIndices_skips_indexed _ [0, 0, 0] rfl

/-! ## Theorems: post-processing with no flags is the identity (C8) -/

/-- C8: with neither GenerateIndices nor GenerateNormals set
(`flags = NONE = 0`), the post-processing stage returns the assembled
scene unchanged: every mesh's vertex list, index array and material
reference, and the material and image lists, are exactly those of the
input scene. -/
theorem postProcess_none_id (s : Scene ℝ) : postProcess loadFlags.NONE s = .ok s := by
  simp [postProcess, loadFlags.NONE, loadFlags.GENERATE_INDICES, loadFlags.GENERATE_NORMALS]

/-! ## Theorems: vertex welding (C3) -/

theorem firstIdx?_eq_none_iff {β : Type} [DecidableEq β] (v : β) (l : List β) :
    firstIdx? v l = none ↔ v ∉ l := by
  induction l with
  | nil => simp [firstIdx?]
  | cons a l ih =>
    by_cases h : a = v
    · subst h
      simp [firstIdx?]
    · simp only [firstIdx?, if_neg h, Option.map_eq_none', ih, List.mem_cons]
      constructor
      · intro hnl hor
        rcases hor with hva | hvl
        · exact h hva.symm
        · exact hnl hvl
      · intro hn hvl
        exact hn (Or.inr hvl)

theorem firstIdx?_get? {β : Type} [DecidableEq β] {v : β} :
    ∀ {l : List β} {j : ℕ}, firstIdx? v l = some j → l.get? j = some v := by
  intro l
  induction l with
  | nil => intro j h; simp [firstIdx?] at h
  | cons a l ih =>
    intro j h
    by_cases ha : a = v
    · subst ha
      rw [show firstIdx? a (a :: l) = some 0 from by simp [firstIdx?]] at h
      cases h
      rfl
    · simp only [firstIdx?, if_neg ha] at h
      obtain ⟨j', hj', rfl⟩ := Option.map_eq_some'.mp h
      simpa using ih hj'

theorem firstIdx?_append_of_some {β : Type} [DecidableEq β] {v : β} :
    ∀ {l : List β} {j : ℕ}, firstIdx? v l = some j →
      ∀ (t : List β), firstIdx? v (l ++ t) = some j := by
  intro l
  induction l with
  | nil => intro j h; simp [firstIdx?] at h
  | cons a l ih =>
    intro j h t
    by_cases ha : a = v
    · simp only [firstIdx?, if_pos ha, Option.some.injEq] at h
      simp [firstIdx?, ha, ← h]
    · simp only [firstIdx?, if_neg ha] at h ⊢
      obtain ⟨j', hj', rfl⟩ := Option.map_eq_some'.mp h
      simp [List.cons_append, ih hj' t]

theorem firstIdx?_append_self {β : Type} [DecidableEq β] {v : β} :
    ∀ {l : List β}, v ∉ l → firstIdx? v (l ++ [v]) = some l.length := by
  intro l
  induction l with
  | nil => intro _; simp [firstIdx?]
  | cons a l ih =>
    intro h
    simp only [List.mem_cons, not_or] at h
    have ha : a ≠ v := fun hav => h.1 hav.symm
    simp [firstIdx?, ha, ih h.2]

theorem firstIdx?_append_of_none {β : Type} [DecidableEq β] {v w : β} :
    ∀ {l : List β}, firstIdx? w l = none → v ≠ w →
      firstIdx? w (l ++ [v]) = none := by
  intro l
  induction l with
  | nil => intro _ hvw; simp [firstIdx?, hvw]
  | cons a l ih =>
    intro h hvw
    by_cases ha : a = w
    · simp [firstIdx?, ha] at h
    · simp only [firstIdx?, if_neg ha, Option.map_eq_none'] at h
      simp [firstIdx?, ha, ih h hvw]

theorem dedupFSAux_append {β : Type} [DecidableEq β] (l1 : List β) :
    ∀ (l2 acc : List β), dedupFSAux acc (l1 ++ l2) = dedupFSAux (dedupFSAux acc l1) l2 := by
  induction l1 with
  | nil => intro l2 acc; simp [dedupFSAux]
  | cons v l ih =>
    intro l2 acc
    simp only [List.cons_append, dedupFSAux]
    by_cases hv : v ∈ acc
    · simp [hv, ih]
    · simp [hv, ih]

theorem mem_dedupFSAux {β : Type} [DecidableEq β] (l : List β) :
    ∀ (acc : List β) (v : β), v ∈ dedupFSAux acc l ↔ v ∈ acc ∨ v ∈ l := by
  induction l with
  | nil => intro acc v; simp [dedupFSAux]
  | cons a l ih =>
    intro acc v
    by_cases ha : a ∈ acc
    · rw [show dedupFSAux acc (a :: l) = dedupFSAux acc l by simp [dedupFSAux, ha], ih]
      constructor
      · intro hor
        rcases hor with h | h
        · exact Or.inl h
        · exact Or.inr (List.mem_cons_of_mem a h)
      · intro hor
        rcases hor with h | h
        · exact Or.inl h
        · rcases List.mem_cons.mp h with rfl | h
          · exact Or.inl ha
          · exact Or.inr h
    · rw [show dedupFSAux acc (a :: l) = dedupFSAux (acc ++ [a]) l by simp [dedupFSAux, ha], ih]
      simp [List.mem_append, or_assoc]

theorem nodup_dedupFSAux {β : Type} [DecidableEq β] (l : List β) :
    ∀ (acc : List β), acc.Nodup → (dedupFSAux acc l).Nodup := by
  induction l with
  | nil => intro acc h; simpa [dedupFSAux] using h
  | cons a l ih =>
    intro acc h
    by_cases ha : a ∈ acc
    · rw [show dedupFSAux acc (a :: l) = dedupFSAux acc l by simp [dedupFSAux, ha]]
      exact ih acc h
    · rw [show dedupFSAux acc (a :: l) = dedupFSAux (acc ++ [a]) l by simp [dedupFSAux, ha]]
      refine ih (acc ++ [a]) ?_
      simp [List.nodup_append, h, ha]

theorem dedupFS_append_one {β : Type} [DecidableEq β] (l : List β) (v : β) :
    dedupFS (l ++ [v]) = if v ∈ dedupFS l then dedupFS l else dedupFS l ++ [v] := by
  unfold dedupFS
  rw [dedupFSAux_append]
  by_cases hv : v ∈ dedupFSAux [] l
  · simp [dedupFSAux, hv]
  · simp [dedupFSAux, hv]

theorem mem_dedupFS {β : Type} [DecidableEq β] (l : List β) (v : β) :
    v ∈ dedupFS l ↔ v ∈ l := by
  unfold dedupFS
  rw [mem_dedupFSAux]
  simp

theorem nodup_dedupFS {β : Type} [DecidableEq β] (l : List β) : (dedupFS l).Nodup :=
  nodup_dedupFSAux l [] List.nodup_nil

theorem weldGo_eq {β : Type} [DecidableEq β] (rest : List β) :
    ∀ (done : List β) (cache : List (β × ℕ)),
    (∀ v, cacheLookup cache v = firstIdx? v (dedupFS done)) →
    weldGo cache (dedupFS done) (done.map fun w => (firstIdx? w (dedupFS done)).getD 0)
        (dedupFS done).length rest
      = (dedupFS (done ++ rest),
         (done ++ rest).map fun w => (firstIdx? w (dedupFS (done ++ rest))).getD 0) := by
  induction rest with
  | nil =>
    intro done cache _
    simp [weldGo]
  | cons v rest ih =>
    intro done cache hc
    have hdone : done ++ v :: rest = (done ++ [v]) ++ rest := by simp
    rw [hdone]
    simp only [weldGo]
    rw [hc v]
    cases hmem : firstIdx? v (dedupFS done) with
    | some i =>
      dsimp only
      have hv : v ∈ dedupFS done := by
        by_contra hnv
        rw [(firstIdx?_eq_none_iff v _).mpr hnv] at hmem
        exact Option.noConfusion hmem
      have hd : dedupFS (done ++ [v]) = dedupFS done := by
        rw [dedupFS_append_one]
        simp [hv]
      have hmap : (done.map fun w => (firstIdx? w (dedupFS done)).getD 0) ++ [i]
          = (done ++ [v]).map fun w => (firstIdx? w (dedupFS (done ++ [v]))).getD 0 := by
        rw [hd]
        simp [hmem]
      rw [hmap, show dedupFS done = dedupFS (done ++ [v]) from hd.symm]
      exact ih (done ++ [v]) cache fun w => by rw [hd]; exact hc w
    | none =>
      dsimp only
      have hv : v ∉ dedupFS done := (firstIdx?_eq_none_iff v _).mp hmem
      have hd : dedupFS (done ++ [v]) = dedupFS done ++ [v] := by
        rw [dedupFS_append_one]
        simp [hv]
      have hc' : ∀ w, cacheLookup ((v, (dedupFS done).length) :: cache) w
          = firstIdx? w (dedupFS (done ++ [v])) := by
        intro w
        rw [hd]
        by_cases hw : v = w
        · subst hw
          simp [cacheLookup, firstIdx?_append_self hv]
        · simp only [cacheLookup, if_neg hw]
          rw [hc w]
          cases hw2 : firstIdx? w (dedupFS done) with
          | some j => exact (firstIdx?_append_of_some hw2 [v]).symm
          | none => exact (firstIdx?_append_of_none hw2 hw).symm
      have hmap : (done.map fun w => (firstIdx? w (dedupFS done)).getD 0)
            ++ [(dedupFS done).length]
          = (done ++ [v]).map fun w => (firstIdx? w (dedupFS (done ++ [v]))).getD 0 := by
        rw [hd, List.map_append]
        congr 1
        · refine List.map_congr_left fun w hwdone => ?_
          have hwmem : w ∈ dedupFS done := (mem_dedupFS done w).mpr hwdone
          rcases ho : firstIdx? w (dedupFS done) with _ | j
          · exact absurd ((firstIdx?_eq_none_iff w _).mp ho) (by simp [hwmem])
          · rw [firstIdx?_append_of_some ho]
        · simp [firstIdx?_append_self hv]
      have hlen : (dedupFS done).length + 1 = (dedupFS (done ++ [v])).length := by
        rw [hd]
        simp
      rw [hmap, show dedupFS done ++ [v] = dedupFS (done ++ [v]) from hd.symm, hlen]
      exact ih (done ++ [v]) _ hc'

theorem weld_eq {β : Type} [DecidableEq β] (vs : List β) :
    weld vs = (dedupFS vs, vs.map fun w => (firstIdx? w (dedupFS vs)).getD 0) := by
  have h := weldGo_eq vs [] [] fun v => rfl
  simpa [weld, dedupFS, dedupFSAux] using h

/-- C3: on a mesh without an index array, the welding pass replaces the
vertex list by its first-seen deduplication and sets one index per
original vertex; two vertices collapse to the same output index (and the
same single output vertex) exactly when all their fields are equal as
bit patterns (`α` is the field-representation type; the source compares
raw 32-bit patterns), so a vertex differing in even one bit of one field
stays a distinct entry; the material is untouched. -/
theorem generateIndices_dedup {α : Type} [DecidableEq α] (m : Mesh α)
    (h : m.indices = none) :
    (generateIndicesMesh m).vertices = dedupFS m.vertices
  ∧ (generateIndicesMesh m).indices
      = some (m.vertices.map fun w => (firstIdx? w (dedupFS m.vertices)).getD 0)
  ∧ (generateIndicesMesh m).material = m.material
  ∧ (generateIndicesMesh m).vertices.Nodup
  ∧ (∀ v, v ∈ (generateIndicesMesh m).vertices ↔ v ∈ m.vertices)
  ∧ ∀ I, (generateIndicesMesh m).indices = some I →
      I.length = m.vertices.length
      ∧ (∀ i v, m.vertices.get? i = some v →
          ∃ j, I.get? i = some j ∧ (generateIndicesMesh m).vertices.get? j = some v)
      ∧ (∀ i j, i < m.vertices.length → j < m.vertices.length →
          (I.get? i = I.get? j ↔ m.vertices.get? i = m.vertices.get? j)) := by
  have hm : generateIndicesMesh m
      = { m with vertices := dedupFS m.vertices,
                 indices := some (m.vertices.map fun w =>
                   (firstIdx? w (dedupFS m.vertices)).getD 0) } := by
    unfold generateIndicesMesh
    rw [h, weld_eq]
  set D := dedupFS m.vertices with hD
  set f : Vertex α → ℕ := fun w => (firstIdx? w D).getD 0 with hf
  have hsome : ∀ v ∈ m.vertices, ∃ j, firstIdx? v D = some j := by
    intro v hv
    rcases ho : firstIdx? v D with _ | j
    · exact absurd ((firstIdx?_eq_none_iff v D).mp ho)
        (by simp [hD, mem_dedupFS, hv])
    · exact ⟨j, rfl⟩
  have hpoint : ∀ i v, m.vertices.get? i = some v →
      ∃ j, (m.vertices.map f).get? i = some j ∧ D.get? j = some v := by
    intro i v hi
    obtain ⟨j, hj⟩ := hsome v (List.get?_mem hi)
    refine ⟨j, ?_, firstIdx?_get? hj⟩
    rw [List.get?_map, hi]
    simp [hf, hj]
  refine ⟨by rw [hm], by rw [hm], by rw [hm], ?_, ?_, ?_⟩
  · rw [hm]
    exact nodup_dedupFS m.vertices
  · intro v
    rw [hm]
    exact mem_dedupFS m.vertices v
  · intro I hI
    rw [hm] at hI
    simp only [Option.some.injEq] at hI
    subst hI
    refine ⟨by simp, ?_, ?_⟩
    · intro i v hi
      obtain ⟨j, hj1, hj2⟩ := hpoint i v hi
      exact ⟨j, hj1, by rw [hm]; exact hj2⟩
    · intro i j hi hj
      obtain ⟨vi, hvi⟩ : ∃ vi, m.vertices.get? i = some vi :=
        ⟨_, List.get?_eq_get hi⟩
      obtain ⟨vj, hvj⟩ : ∃ vj, m.vertices.get? j = some vj :=
        ⟨_, List.get?_eq_get hj⟩
      obtain ⟨ji, hji1, hji2⟩ := hpoint i vi hvi
      obtain ⟨jj, hjj1, hjj2⟩ := hpoint j vj hvj
      rw [hvi, hvj, hji1, hjj1]
      constructor
      · intro hij
        simp only [Option.some.injEq] at hij
        subst hij
        rw [hji2] at hjj2
        simp only [Option.some.injEq] at hjj2
        rw [hjj2]
      · intro hij
        simp only [Option.some.injEq] at hij
        subst hij
        rw [List.get?_map, hvi] at hji1
        rw [List.get?_map, hvj] at hjj1
        simp only [Option.map_some', Option.some.injEq] at hji1 hjj1
        rw [← hji1, ← hjj1]

/-- C3 witness: three vertices over the bit-pattern type `ℕ`; the first
two are bit-identical, the third differs from them in the least
significant bit of one normal field; welding yields two output vertices
and indices `[0, 0, 1]`. -/
theorem generateIndices_dedup_apply :
    (generateIndicesMesh
        (⟨[⟨⟨0, 0, 0⟩, ⟨0, 0⟩, ⟨0, 0, 0, 0⟩, ⟨0, 0, 0⟩, ⟨0, 0, 0⟩⟩,
           ⟨⟨0, 0, 0⟩, ⟨0, 0⟩, ⟨0, 0, 0, 0⟩, ⟨0, 0, 0⟩, ⟨0, 0, 0⟩⟩,
           ⟨⟨0, 0, 0⟩, ⟨0, 0⟩, ⟨0, 0, 0, 0⟩, ⟨1, 0, 0⟩, ⟨0, 0, 0⟩⟩], none, none⟩ : Mesh ℕ)).vertices
      = [⟨⟨0, 0, 0⟩, ⟨0, 0⟩, ⟨0, 0, 0, 0⟩, ⟨0, 0, 0⟩, ⟨0, 0, 0⟩⟩,
         ⟨⟨0, 0, 0⟩, ⟨0, 0⟩, ⟨0, 0, 0, 0⟩, ⟨1, 0, 0⟩, ⟨0, 0, 0⟩⟩]
  ∧ (generateIndicesMesh
        (⟨[⟨⟨0, 0, 0⟩, ⟨0, 0⟩, ⟨0, 0, 0, 0⟩, ⟨0, 0, 0⟩, ⟨0, 0, 0⟩⟩,
           ⟨⟨0, 0, 0⟩, ⟨0, 0⟩, ⟨0, 0, 0, 0⟩, ⟨0, 0, 0⟩, ⟨0, 0, 0⟩⟩,
           ⟨⟨0, 0, 0⟩, ⟨0, 0⟩, ⟨0, 0, 0, 0⟩, ⟨1, 0, 0⟩, ⟨0, 0, 0⟩⟩], none, none⟩ : Mesh ℕ)).indices
      = some [0, 0, 1] := by
  have h := generateIndices_dedup
    (⟨[⟨⟨0, 0, 0⟩, ⟨0, 0⟩, ⟨0, 0, 0, 0⟩, ⟨0, 0, 0⟩, ⟨0, 0, 0⟩⟩,
       ⟨⟨0, 0, 0⟩, ⟨0, 0⟩, ⟨0, 0, 0, 0⟩, ⟨0, 0, 0⟩, ⟨0, 0, 0⟩⟩,
       ⟨⟨0, 0, 0⟩, ⟨0, 0⟩, ⟨0, 0, 0, 0⟩, ⟨1, 0, 0⟩, ⟨0, 0, 0⟩⟩], none, none⟩ : Mesh ℕ) rfl
  exact ⟨h.1.trans (by decide), h.2.1.trans (by decide)⟩

/-! ## Theorems: GenerateNormals on an empty mesh panics (C10) -/

theorem generateNormalsMesh_empty (m : Mesh ℝ) (h : m.vertices = []) :
    generateNormalsMesh m = .panic "index out of bounds: the len is 0 but the index is 0" := by
  unfold generateNormalsMesh
  rw [h]
  rfl

theorem generateIndicesMesh_empty {α : Type} [DecidableEq α] (m : Mesh α)
    (h : m.vertices = []) : (generateIndicesMesh m).vertices = [] := by
  cases hi : m.indices with
  | some l => simp [generateIndicesMesh, hi, h]
  | none => simp [generateIndicesMesh, hi, h, weld, weldGo]

theorem generateNormalsMeshes_panic (ms : List (Mesh ℝ))
    (hex : ∃ m ∈ ms, (generateNormalsMesh m).isPanic = true) :
    (generateNormalsMeshes ms).isPanic = true := by
  induction ms with
  | nil => simp at hex
  | cons m rest ih =>
    obtain ⟨m', hm', hp⟩ := hex
    unfold generateNormalsMeshes
    rcases List.mem_cons.mp hm' with rfl | hmem
    · cases hg : generateNormalsMesh m' with
      | panic s => simp [PResult.isPanic]
      | ok mm =>
        rw [hg] at hp
        simp [PResult.isPanic] at hp
    · cases hg : generateNormalsMesh m with
      | panic s => simp [PResult.isPanic]
      | ok mm =>
        have hr := ih ⟨m', hmem, hp⟩
        cases hrest : generateNormalsMeshes rest with
        | panic s => simp [PResult.isPanic]
        | ok ms' =>
          rw [hrest] at hr
          simp [PResult.isPanic] at hr

/-- C10: the GenerateNormals pass reads `vertices[0]` of every mesh it
reaches before any other check, so a scene containing a mesh with an
empty vertex list makes loading with GENERATE_NORMALS set panic on an
out-of-bounds index instead of skipping that mesh. -/
theorem generateNormals_empty_mesh_panics (flags : ℕ) (s : Scene ℝ) (m : Mesh ℝ)
    (hm : m ∈ s.meshes) (hv : m.vertices = [])
    (hf : flags &&& loadFlags.GENERATE_NORMALS ≠ 0) :
    (postProcess flags s).isPanic = true := by
  unfold postProcess
  by_cases hi : flags &&& loadFlags.GENERATE_INDICES ≠ 0
  · simp only [if_pos hi, if_pos hf]
    have hmem : generateIndicesMesh m ∈ s.meshes.map generateIndicesMesh :=
      List.mem_map_of_mem _ hm
    have hp : (generateNormalsMesh (generateIndicesMesh m)).isPanic = true := by
      rw [generateNormalsMesh_empty _ (generateIndicesMesh_empty m hv)]
      rfl
    have hall := generateNormalsMeshes_panic _ ⟨_, hmem, hp⟩
    cases hr : generateNormalsMeshes (s.meshes.map generateIndicesMesh) with
    | panic msg => simp [PResult.isPanic]
    | ok ms' =>
      rw [hr] at hall
      simp [PResult.isPanic] at hall
  · simp only [if_neg hi, if_pos hf]
    have hp : (generateNormalsMesh m).isPanic = true := by
      rw [generateNormalsMesh_empty m hv]
      rfl
    have hall := generateNormalsMeshes_panic s.meshes ⟨m, hm, hp⟩
    cases hr : generateNormalsMeshes s.meshes with
    | panic msg => simp [PResult.isPanic]
    | ok ms' =>
      rw [hr] at hall
      simp [PResult.isPanic] at hall

/-- C10 witness: a scene with one mesh whose vertex list is empty,
loaded with flags = GENERATE_NORMALS = 2. -/
theorem generateNormals_empty_mesh_panics_apply :
    (postProcess 2 (⟨[⟨[], none, none⟩], none, none⟩ : Scene ℝ)).isPanic = true :=
  generateNormals_empty_mesh_panics 2 _ ⟨[], none, none⟩ (by simp) rfl (by decide)

/-! ## Theorems: normal generation on one unindexed triangle (C5) -/

theorem Vec3.add_def {α : Type} [Add α] (a b : Vec3 α) :
    a + b = ⟨a.x + b.x, a.y + b.y, a.z + b.z⟩ := rfl

theorem Vec3.sub_def {α : Type} [Sub α] (a b : Vec3 α) :
    a - b = ⟨a.x - b.x, a.y - b.y, a.z - b.z⟩ := rfl

theorem Vec3.zero_add3 (w : Vec3 ℝ) : (⟨0, 0, 0⟩ : Vec3 ℝ) + w = w := by
  cases w with
  | mk x y z =>
    rw [Vec3.add_def]
    simp

theorem magnitudeSquared_pos (v : Vec3 ℝ) (h : v ≠ ⟨0, 0, 0⟩) :
    0 < v.magnitudeSquared := by
  have h' : v.x ≠ 0 ∨ v.y ≠ 0 ∨ v.z ≠ 0 := by
    by_contra hc
    push_neg at hc
    exact h (by cases v; simp_all)
  simp only [Vec3.magnitudeSquared, Vec3.dot]
  rcases h' with hx | hy | hz
  · nlinarith [mul_self_pos.mpr hx, mul_self_nonneg v.y, mul_self_nonneg v.z]
  · nlinarith [mul_self_pos.mpr hy, mul_self_nonneg v.x, mul_self_nonneg v.z]
  · nlinarith [mul_self_pos.mpr hz, mul_self_nonneg v.x, mul_self_nonneg v.y]

theorem normalize_magnitude (v : Vec3 ℝ) (h : v ≠ ⟨0, 0, 0⟩) :
    v.normalize.magnitude = 1 := by
  have hs : 0 < v.magnitudeSquared := magnitudeSquared_pos v h
  have hmpos : 0 < v.magnitude := Real.sqrt_pos.mpr hs
  have hmm : v.magnitude * v.magnitude = v.magnitudeSquared :=
    Real.mul_self_sqrt hs.le
  have hm0 : v.magnitude ≠ 0 := ne_of_gt hmpos
  unfold Vec3.normalize
  show Real.sqrt (Vec3.magnitudeSquared _) = 1
  have hone : (Vec3.magnitudeSquared
      (⟨v.x / v.magnitude, v.y / v.magnitude, v.z / v.magnitude⟩ : Vec3 ℝ)) = 1 := by
    simp only [Vec3.magnitudeSquared, Vec3.dot] at hmm ⊢
    field_simp
    linarith [hmm]
  rw [hone, Real.sqrt_one]

theorem magnitude_zero3 : (Vec3.magnitude ⟨0, 0, 0⟩) = 0 := by
  simp [Vec3.magnitude, Vec3.magnitudeSquared, Vec3.dot]

theorem accumUnindexed_triple (v1 v2 v3 : Vertex ℝ) :
    accumUnindexed [v1, v2, v3] 0
      = .ok [{ v1 with normal := v1.normal + faceNormal v1 v2 v3 },
             { v2 with normal := v2.normal + faceNormal v1 v2 v3 },
             { v3 with normal := v3.normal + faceNormal v1 v2 v3 }] := by
  rw [accumUnindexed]
  rw [dif_pos (by norm_num : (0 : ℕ) < [v1, v2, v3].length)]
  dsimp only [List.get?, addNormalAt, List.set]
  rw [accumUnindexed]
  rw [dif_neg (by norm_num)]

/-- C5: running GenerateNormals on one isolated unindexed triangle whose
input normals are all zero yields the same normal on all three vertices,
namely the normalized negated cross product of
`edge1 = v1.position - v2.position` and `edge2 = v3.position - v2.position`,
and that normal is unit-length (exactly, hence within tolerance 1e-5),
provided the triangle is non-degenerate (non-zero face normal). -/
theorem generateNormals_triangle (v1 v2 v3 : Vertex ℝ) (mat : Option ℕ)
    (h1 : v1.normal = ⟨0, 0, 0⟩) (h2 : v2.normal = ⟨0, 0, 0⟩)
    (h3 : v3.normal = ⟨0, 0, 0⟩)
    (hnd : faceNormal v1 v2 v3 ≠ ⟨0, 0, 0⟩) :
    generateNormalsMesh ⟨[v1, v2, v3], none, mat⟩
      = .ok ⟨[{ v1 with normal := (faceNormal v1 v2 v3).normalize },
              { v2 with normal := (faceNormal v1 v2 v3).normalize },
              { v3 with normal := (faceNormal v1 v2 v3).normalize }], none, mat⟩
  ∧ (faceNormal v1 v2 v3).normalize.magnitude = 1
  ∧ |(faceNormal v1 v2 v3).normalize.magnitude - 1| ≤ 1 / 100000 := by
  have hunit := normalize_magnitude _ hnd
  refine ⟨?_, hunit, by rw [hunit]; norm_num⟩
  have hguard : ¬ ((1 : ℝ) / 2 < Vec3.magnitude ⟨0, 0, 0⟩) := by
    rw [magnitude_zero3]
    norm_num
  unfold generateNormalsMesh
  dsimp only [List.get?]
  rw [h1, if_neg hguard]
  rw [accumUnindexed_triple]
  dsimp only [List.map, normalizeVertex]
  rw [h1, h2, h3, Vec3.zero_add3]

/-- C5 witness: the right triangle with positions `(0,0,0)`, `(1,0,0)`,
`(0,1,0)`, all other vertex fields zero. -/
theorem generateNormals_triangle_apply :
    generateNormalsMesh
        (⟨[⟨⟨0, 0, 0⟩, ⟨0, 0⟩, ⟨0, 0, 0, 0⟩, ⟨0, 0, 0⟩, ⟨0, 0, 0⟩⟩,
           ⟨⟨1, 0, 0⟩, ⟨0, 0⟩, ⟨0, 0, 0, 0⟩, ⟨0, 0, 0⟩, ⟨0, 0, 0⟩⟩,
           ⟨⟨0, 1, 0⟩, ⟨0, 0⟩, ⟨0, 0, 0, 0⟩, ⟨0, 0, 0⟩, ⟨0, 0, 0⟩⟩], none, none⟩ : Mesh ℝ)
      = .ok ⟨[⟨⟨0, 0, 0⟩, ⟨0, 0⟩, ⟨0, 0, 0, 0⟩,
                (faceNormal ⟨⟨0, 0, 0⟩, ⟨0, 0⟩, ⟨0, 0, 0, 0⟩, ⟨0, 0, 0⟩, ⟨0, 0, 0⟩⟩
                  ⟨⟨1, 0, 0⟩, ⟨0, 0⟩, ⟨0, 0, 0, 0⟩, ⟨0, 0, 0⟩, ⟨0, 0, 0⟩⟩
                  ⟨⟨0, 1, 0⟩, ⟨0, 0⟩, ⟨0, 0, 0, 0⟩, ⟨0, 0, 0⟩, ⟨0, 0, 0⟩⟩).normalize, ⟨0, 0, 0⟩⟩,
              ⟨⟨1, 0, 0⟩, ⟨0, 0⟩, ⟨0, 0, 0, 0⟩,
                (faceNormal ⟨⟨0, 0, 0⟩, ⟨0, 0⟩, ⟨0, 0, 0, 0⟩, ⟨0, 0, 0⟩, ⟨0, 0, 0⟩⟩
                  ⟨⟨1, 0, 0⟩, ⟨0, 0⟩, ⟨0, 0, 0, 0⟩, ⟨0, 0, 0⟩, ⟨0, 0, 0⟩⟩
                  ⟨⟨0, 1, 0⟩, ⟨0, 0⟩, ⟨0, 0, 0, 0⟩, ⟨0, 0, 0⟩, ⟨0, 0, 0⟩⟩).normalize, ⟨0, 0, 0⟩⟩,
              ⟨⟨0, 1, 0⟩, ⟨0, 0⟩, ⟨0, 0, 0, 0⟩,
                (faceNormal ⟨⟨0, 0, 0⟩, ⟨0, 0⟩, ⟨0, 0, 0, 0⟩, ⟨0, 0, 0⟩, ⟨0, 0, 0⟩⟩
                  ⟨⟨1, 0, 0⟩, ⟨0, 0⟩, ⟨0, 0, 0, 0⟩, ⟨0, 0, 0⟩, ⟨0, 0, 0⟩⟩
                  ⟨⟨0, 1, 0⟩, ⟨0, 0⟩, ⟨0, 0, 0, 0⟩, ⟨0, 0, 0⟩, ⟨0, 0, 0⟩⟩).normalize, ⟨0, 0, 0⟩⟩],
             none, none⟩
  ∧ (faceNormal ⟨⟨0, 0, 0⟩, ⟨0, 0⟩, ⟨0, 0, 0, 0⟩, ⟨0, 0, 0⟩, ⟨0, 0, 0⟩⟩
      ⟨⟨1, 0, 0⟩, ⟨0, 0⟩, ⟨0, 0, 0, 0⟩, ⟨0, 0, 0⟩, ⟨0, 0, 0⟩⟩
      ⟨⟨0, 1, 0⟩, ⟨0, 0⟩, ⟨0, 0, 0, 0⟩, ⟨0, 0, 0⟩, ⟨0, 0, 0⟩⟩).normalize.magnitude = 1
  ∧ |(faceNormal ⟨⟨0, 0, 0⟩, ⟨0, 0⟩, ⟨0, 0, 0, 0⟩, ⟨0, 0, 0⟩, ⟨0, 0, 0⟩⟩
      ⟨⟨1, 0, 0⟩, ⟨0, 0⟩, ⟨0, 0, 0, 0⟩, ⟨0, 0, 0⟩, ⟨0, 0, 0⟩⟩
      ⟨⟨0, 1, 0⟩, ⟨0, 0⟩, ⟨0, 0, 0, 0⟩, ⟨0, 0, 0⟩, ⟨0, 0, 0⟩⟩).normalize.magnitude - 1|
      ≤ 1 / 100000 :=
  generateNormals_triangle _ _ _ none rfl rfl rfl (by
    simp only [faceNormal, Vec3.sub_def, Vec3.cross, Vec3.mk.injEq]
    norm_num)

/-! ## Theorems: TEXCOORD_0 absence panics during vertex building (C7) -/

/-- C7 evaluated on the code: when the primitive has at least one
position but TEXCOORD_0 is absent (empty decoded texcoord array), vertex
building panics indexing `tex_coords[0]` instead of succeeding; by
contrast an absent NORMAL array is defaulted per vertex to `(0,0,0)`. -/
theorem buildVertices_missing_texcoord (p : Vec3 ℝ) (ps : List (Vec3 ℝ))
    (ns : List (Vec3 ℝ)) (tc : Vec2 ℝ) :
    buildVertices (p :: ps) [] ns
      = .panic "index out of bounds: the len is 0 but the index is 0"
  ∧ buildVertices [p] [tc] []
      = .ok [⟨p, tc, ⟨1, 1, 1, 1⟩, ⟨0, 0, 0⟩, ⟨0, 0, 0⟩⟩] :=
  ⟨rfl, rfl⟩

/-! ## Theorems: asset/version parsing (C9) -/

@[simp] theorem outcome_bind_ok {α β : Type} (a : α) (f : α → Outcome β) :
    (Outcome.ok a >>= f) = f a := rfl

@[simp] theorem outcome_bind_err {α β : Type} (e : ImportError) (f : α → Outcome β) :
    ((Outcome.err e : Outcome α) >>= f) = Outcome.err e := rfl

@[simp] theorem outcome_bind_panic {α β : Type} (s : String) (f : α → Outcome β) :
    ((Outcome.panic s : Outcome α) >>= f) = Outcome.panic s := rfl

@[simp] theorem outcome_pure_eq_ok {α : Type} (a : α) :
    (pure a : Outcome α) = Outcome.ok a := rfl

/-- C9: importing a document whose `asset` object lacks `version` fails
with a returned error naming "version" ("Missing version string."),
while importing `{"asset":{"version":"2.0"}}` succeeds with a document
whose asset is `{version: "2.0"}` and every other field absent. -/
theorem import_asset_version :
    (∀ (j a : Json), j.get? "asset" = some a → a.get? "version" = none →
        gltfImport j = .err ⟨.other, "Missing version string."⟩
      ∧ ∃ pre post, "Missing version string." = pre ++ "version" ++ post)
  ∧ gltfImport (.obj [("asset", .obj [("version", .str "2.0")])])
      = .ok { accessors := none,
              asset := { version := "2.0", copyright := none, generator := none,
                         minVersion := none },
              buffers := none, bufferViews := none, images := none, materials := none,
              meshes := none, nodes := none, samplers := none, scene := none,
              scenes := none, textures := none, glbData := none } := by
  constructor
  · intro j a hj ha
    constructor
    · simp only [gltfImport, hj, ha, outcome_bind_err]
    · exact ⟨"Missing ", " string.", rfl⟩
  · rfl

/-- C9 witness: the concrete failing document `{"asset":{}}` and the
concrete succeeding document `{"asset":{"version":"2.0"}}`. -/
theorem import_asset_version_apply :
    gltfImport (.obj [("asset", .obj [])]) = .err ⟨.other, "Missing version string."⟩
  ∧ gltfImport (.obj [("asset", .obj [("version", .str "2.0")])])
      = .ok { accessors := none,
              asset := { version := "2.0", copyright := none, generator := none,
                         minVersion := none },
              buffers := none, bufferViews := none, images := none, materials := none,
              meshes := none, nodes := none, samplers := none, scene := none,
              scenes := none, textures := none, glbData := none } :=
  ⟨(import_asset_version.1 (.obj [("asset", .obj [])]) (.obj []) rfl rfl).1,
   import_asset_version.2⟩

end Modelo
